import Mathlib

/-!
# AgentOps-Lite: formal model of the governed agent workflow

A shallow embedding of the parts of the AgentOps-Lite repository that govern
one workflow run: the critic checkpoint and graph routing (src/agent/critic.py,
src/agent/graph.py, src/agent/state.py), the execution governor
(src/services/agent_executor.py), the observability pipeline
(src/services/logging_service.py) and the tool-execution stage
(src/agent/nodes/tool_execution.py, src/tools/tool_registry.py).

Python values are modelled as plain Lean data: machine-independent `Int`/`Nat`
for Python integers, `String` (a list of unicode characters, matching Python
`str` and `len`) for text, `Option` for nullable fields, association lists for
dictionaries, and `Except PyError` for code that can raise.  Wall-clock
instants (`datetime`) are not tracked; durations appear as abstract natural
numbers where a claim needs them.
-/

namespace AgentOps

/-- The Python exceptions that the modelled code can raise. -/
inductive PyError where
  | attributeError (attr : String)
  | keyError (key : String)
  | nameError (name : String)
  | typeError (msg : String)
  | valueError (msg : String)
  | validationError (loc : String)
  | timeoutError (msg : String)
deriving Repr, DecidableEq

/-- `str(e)` for a modelled exception (abbreviated rendering; only its
non-nullness and payload matter to the claims). -/
def pyErrorStr : PyError → String
  | .attributeError a => "AttributeError: " ++ a
  | .keyError k => "KeyError: " ++ k
  | .nameError n => "NameError: name " ++ n ++ " is not defined"
  | .typeError m => "TypeError: " ++ m
  | .valueError m => m
  | .validationError l => "ValidationError: " ++ l
  | .timeoutError m => m

/-- `type(e).__name__` for a modelled exception. -/
def pyErrorTypeName : PyError → String
  | .attributeError _ => "AttributeError"
  | .keyError _ => "KeyError"
  | .nameError _ => "NameError"
  | .typeError _ => "TypeError"
  | .valueError _ => "ValueError"
  | .validationError _ => "ValidationError"
  | .timeoutError _ => "TimeoutError"

/-! ## String helpers (Python `in`, `str.strip`, `len`) -/

/-- `charsHasPrefix pat cs` : `pat` is a prefix of `cs` (character lists). -/
def charsHasPrefix : List Char → List Char → Bool
  | [], _ => true
  | _ :: _, [] => false
  | p :: ps, c :: cs => p == c && charsHasPrefix ps cs

/-- `charsContains pat cs` : `pat` occurs as a contiguous run inside `cs`.
Models Python `pat in cs` on strings (the empty pattern is contained in
everything, as in Python). -/
def charsContains : List Char → List Char → Bool
  | pat, [] => pat.isEmpty
  | pat, c :: cs => charsHasPrefix pat (c :: cs) || charsContains pat cs

/-- Python `pat in hay` for strings. -/
def strContains (hay pat : String) : Bool :=
  charsContains pat.data hay.data

/-- Python `s.strip()`: drop leading and trailing whitespace. -/
def pyStrip (s : String) : String :=
  String.mk (((s.data.dropWhile Char.isWhitespace).reverse.dropWhile
    Char.isWhitespace).reverse)

/-- Python `len(s)`: the number of characters of `s`. -/
def pyLen (s : String) : Nat := s.data.length

/-! ## WorkflowState (src/agent/state.py)

`State` is the pydantic model threaded through the graph.  `datetime`
timestamps on tool records are not modelled (they never influence control
flow).  `ToolObservation.result` (typed `Any` in the source) is modelled as an
optional string, which is what the registered tools would produce. -/

/-- A tool-call record (state.py `ToolCall`).  `input_params` holds the
validated parameter dict; a `ToolCall` value only exists once pydantic
validation of that field has succeeded. -/
structure ToolCall where
  name : String
  input_params : List (String × String)
  output : Option String := none
  success : Bool := true
  error : Option String := none
deriving Repr, DecidableEq

/-- A tool-execution observation (state.py `ToolObservation`). -/
structure ToolObservation where
  tool : String
  args : List (String × String)
  result : Option String
  success : Bool
  error : Option String := none
deriving Repr, DecidableEq

/-- The workflow state (state.py `State`), with the source's field names and
defaults.  The free-form `memory` dict is modelled as a string association
list. -/
structure State where
  user_query : String
  intent : Option String := none
  plan : Option (List String) := none
  need_retrieval : Option Bool := some true
  retrieved_docs : Option (List String) := none
  tool_calls : List ToolCall := []
  observations : List ToolObservation := []
  draft_answer : Option String := none
  retries : Int := 0
  max_retries : Int := 2
  final_answer : Option String := none
  memory : List (String × String) := []
  context : List String := []
  critic_decision : Option String := none
  critic_reason : Option String := none
deriving Repr, DecidableEq

/-- The field names `State` declares (state.py lines 24-54).  Pydantic raises
`AttributeError` for any other attribute access. -/
def stateFieldNames : List String :=
  ["user_query", "intent", "plan", "need_retrieval", "retrieved_docs",
   "tool_calls", "observations", "draft_answer", "retries", "max_retries",
   "final_answer", "memory", "context", "critic_decision", "critic_reason"]

/-- `getattr(state, "trace_id")`, as performed by the f-string in
`CriticNode._handle_retry` (critic.py line 60).  `State` declares no
`trace_id` field, so the access yields no value: in Python, pydantic raises
`AttributeError: trace_id`. -/
def State.getTraceId (_s : State) : Option String := none

/-- Python truthiness test `not state.draft_answer or not
state.draft_answer.strip()` (critic.py line 13): the draft is missing when it
is `None`, empty, or whitespace-only. -/
def draftMissing : Option String → Bool
  | none => true
  | some s => s.isEmpty || (pyStrip s).isEmpty

/-- Python truthiness of an optional list (`state.plan`): `None` and `[]` are
falsy. -/
def planTruthy : Option (List String) → Bool
  | none => false
  | some l => !l.isEmpty

/-- `any(f(step) for step in plan)` over an optional plan; only evaluated
under `planTruthy` in the source, and `False` on a missing plan. -/
def planAny (p : Option (List String)) (f : String → Bool) : Bool :=
  match p with
  | none => false
  | some l => l.any f

/-- Python `not state.retrieved_docs`: `None` and `[]` are falsy. -/
def retrievedDocsEmpty : Option (List String) → Bool
  | none => true
  | some l => l.isEmpty

/-! ## CriticNode (src/agent/nodes/critic.py) -/

/-- The partial state update a critic pass returns (the dict literals at
critic.py lines 41-45, 63-67 and 68-72). -/
structure CriticUpdate where
  critic_decision : String
  critic_reason : String
  final_answer : Option String
deriving Repr, DecidableEq

def analysis_keywords : List String := ["分析", "趋势", "结果", "数据", "计算", "统计"]

def task_keywords : List String := ["完成", "已执行", "成功", "调用", "执行"]

/-- `CriticNode._check_quality` (critic.py lines 74-121).  Returns the
rejection reason, or `none` when the check passes, mirroring the
`{"passed": ..., "critic_reason": ...}` dict of the source.  The source only
calls it with a non-`None` draft; the `None` case is read as the empty
string. -/
def check_quality (s : State) : Option String :=
  let draft := pyStrip (s.draft_answer.getD "")
  if pyLen draft < 10 then
    some ("答案过短（" ++ toString (pyLen draft) ++ " 字符）")
  else if s.intent == some "analysis"
      && !(analysis_keywords.any (fun kw => strContains draft kw))
      && planTruthy s.plan
      && planAny s.plan (fun step => strContains step "分析") then
    some "分析类意图但答案缺少分析性内容"
  else if s.intent == some "task"
      && !(task_keywords.any (fun kw => strContains draft kw))
      && planTruthy s.plan
      && planAny s.plan (fun step => strContains step "调用" || strContains step "工具")
      && !s.tool_calls.isEmpty then
    some "任务类意图但答案缺少执行状态说明"
  else if planTruthy s.plan
      && planAny s.plan (fun step =>
           strContains step "检索" || strContains step "知识库" || strContains step "RAG")
      && retrievedDocsEmpty s.retrieved_docs then
    some "计划要求检索操作但检索文档为空"
  else
    none

/-- `CriticNode._handle_retry` (critic.py lines 50-72).  The incremented retry
counter is compared against `max_retries`; on exhaustion the failure message
f-string reads `state.trace_id`, an attribute `State` does not declare, so the
call raises `AttributeError` (see `State.getTraceId`). -/
def handle_retry (s : State) (reason : String) : Except PyError CriticUpdate :=
  let retries := s.retries + 1
  if retries > s.max_retries then
    match s.getTraceId with
    | none => Except.error (PyError.attributeError "trace_id")
    | some tid =>
        let failure_reason :=
          "智能体执行在重试 " ++ toString s.max_retries ++ " 次后失败。最后失败原因：" ++
            reason ++ "。追踪ID：" ++ tid
        Except.ok
          { critic_decision := "fail",
            critic_reason := "超出最大重试次数：" ++ reason,
            final_answer := some failure_reason }
  else
    Except.ok { critic_decision := "retry", critic_reason := reason, final_answer := none }

/-- `CriticNode.run` (critic.py lines 11-45): empty-draft check, failed-tool
check, quality check, then accept. -/
def criticRun (s : State) : Except PyError CriticUpdate :=
  if draftMissing s.draft_answer then
    handle_retry s "答案为空"
  else
    let failed_tools := s.tool_calls.filter (fun call => !call.success)
    if !failed_tools.isEmpty then
      handle_retry s
        ("工具调用失败：" ++ String.intercalate ", " (failed_tools.map (fun c => c.name)))
    else
      match check_quality s with
      | some reason => handle_retry s reason
      | none =>
          Except.ok
            { critic_decision := "accept",
              critic_reason := "全部检查通过",
              final_answer := s.draft_answer }

/-! ## Graph routing (src/agent/graph.py) -/

/-- The two targets `route_after_critic` can return: the `"planner"` node or
the LangGraph `END` sentinel. -/
inductive RouteTarget where
  | toPlanner
  | toEnd
deriving Repr, DecidableEq

/-- `route_after_critic` (graph.py lines 38-52): `"accept"` goes to `END`;
`"reject"` goes to `END` when the reason mentions retry exhaustion, otherwise
back to `"planner"`; every other decision value (including `"fail"`, the value
the critic actually emits on exhaustion, and `"retry"`) goes to `"planner"`.
The `"reject"` branch tests membership in `critic_reason`, which raises
`TypeError` if that field is `None`. -/
def route_after_critic (s : State) : Except PyError RouteTarget :=
  match s.critic_decision with
  | some "accept" => Except.ok RouteTarget.toEnd
  | some "reject" =>
      match s.critic_reason with
      | some reason =>
          if strContains reason "超出最大重试次数" then Except.ok RouteTarget.toEnd
          else Except.ok RouteTarget.toPlanner
      | none => Except.error (PyError.typeError "argument of type NoneType is not iterable")
  | _ => Except.ok RouteTarget.toPlanner

/-- `route_after_retrieval` (graph.py lines 58-63). -/
def route_after_retrieval (s : State) : String :=
  match s.need_retrieval with
  | some true => "retrieval"
  | some false => "draft_answer"
  | none => "draft_answer"

/-! ## Execution Governor (src/services/agent_executor.py) -/

/-- `ExecutionStatus` (agent_executor.py lines 32-38). -/
inductive ExecutionStatus where
  | success
  | failed
  | terminated
  | timeout
  | interrupted
deriving Repr, DecidableEq

/-- `ExecutionConfig` (agent_executor.py lines 40-47), with the source's
defaults.  `max_execution_time` is a Python float of seconds; it is modelled
as a natural number of seconds (`signal.alarm` truncates it to an int
anyway). -/
structure ExecutionConfig where
  max_steps : Int := 20
  max_execution_time : Nat := 300
  interrupt_after : Option (List String) := none
  fail_fast : Bool := false
  enable_trace : Bool := true
  return_final_state : Bool := true
deriving Repr, DecidableEq

/-- The field names `ExecutionConfig` declares (agent_executor.py lines
42-47). -/
def executionConfigFieldNames : List String :=
  ["max_steps", "max_execution_time", "interrupt_after", "fail_fast",
   "enable_trace", "return_final_state"]

/-- `getattr` for the Boolean-valued attributes of an `ExecutionConfig`:
pydantic resolves only the declared fields and yields nothing (raises
`AttributeError`) for any other name.  In particular no field named
`enable_logging` exists. -/
def configGetBoolAttr (c : ExecutionConfig) (attr : String) : Option Bool :=
  if attr == "fail_fast" then some c.fail_fast
  else if attr == "enable_trace" then some c.enable_trace
  else if attr == "return_final_state" then some c.return_final_state
  else none

/-- The executor object `AgentExecutor.__init__` would construct. -/
structure AgentExecutorObj where
  config : ExecutionConfig
  logging_enabled : Bool
deriving Repr, DecidableEq

/-- `AgentExecutor.__init__` (agent_executor.py lines 105-108).  Line 108
evaluates `self.config.enable_logging`; `ExecutionConfig` declares
`enable_trace` but no `enable_logging`, so the attribute access raises
`AttributeError` and construction never completes. -/
def agentExecutorInit (config : ExecutionConfig) : Except PyError AgentExecutorObj :=
  match configGetBoolAttr config "enable_logging" with
  | some b => Except.ok { config := config, logging_enabled := b }
  | none => Except.error (PyError.attributeError "enable_logging")

/-- `ExecutionResult` (agent_executor.py lines 70-90), with the source's
defaults.  Wall-clock duration is an abstract natural number. -/
structure ExecutionResult where
  execution_id : String
  status : ExecutionStatus
  termination_reason : Option String := none
  steps_count : Int := 0
  execution_time : Nat := 0
  answer : Option String := none
  intent : Option String := none
  plan : Option (List String) := none
  used_tools : List String := []
  triggered_rag : Bool := false
  retrieved_docs_count : Nat := 0
  retries_count : Int := 0
  error_message : Option String := none
  error_type : Option String := none
  final_state : Option State := none
deriving Repr, DecidableEq

/-- `AgentExecutor._initialize_state` (agent_executor.py lines 368-380).
With no caller-supplied initial state it builds
`State(user_query=..., max_retries=self.config.max_steps)`: the run's retry
budget is overwritten with the step budget. -/
def initialize_state (config : ExecutionConfig) (user_query : String)
    (initial_state : Option State) : State :=
  match initial_state with
  | some st => st
  | none => { user_query := user_query, max_retries := config.max_steps }

/-- The dict `AgentExecutor._build_graph_config` returns (agent_executor.py
lines 382-398): everything, including `recursion_limit`, is nested inside the
`configurable` sub-dict. -/
structure BuiltGraphConfig where
  configurable_execution_id : String
  configurable_recursion_limit : Int
  configurable_interrupt_after : Option (List String)
deriving Repr, DecidableEq

/-- `AgentExecutor._build_graph_config` (agent_executor.py lines 382-398). -/
def build_graph_config (config : ExecutionConfig) (execution_id : String) :
    BuiltGraphConfig :=
  { configurable_execution_id := execution_id,
    configurable_recursion_limit := config.max_steps,
    configurable_interrupt_after := config.interrupt_after }

/-- The SIGALRM timeout of `AgentExecutor._execute_with_timeout`
(agent_executor.py lines 400-420): `signal.alarm(budget)` is armed before the
graph runs and the handler raises `TimeoutError` the instant the alarm fires,
wherever execution happens to be.  Given the (abstract, per-stage) durations
of the stages a run would execute sequentially, this predicate holds exactly
when the alarm fires strictly inside some stage — i.e. the stage has started
but not yet finished at wall-clock time `budget`.  `signal.alarm(0)` disables
the alarm, and an alarm that fires exactly on a stage boundary does not
interrupt a running stage. -/
def alarmFiresMidStage : Nat → List Nat → Bool
  | _, [] => false
  | budget, d :: rest =>
      if budget == 0 then false
      else if budget < d then true
      else alarmFiresMidStage (budget - d) rest

/-- `AgentExecutor._handle_timeout` (agent_executor.py lines 485-512): the
result of a run whose `TimeoutError` was caught.  The termination reason is
the f-string `执行超时: {max_execution_time}秒`, embedding the configured
budget. -/
def handle_timeout (config : ExecutionConfig) (execution_id : String)
    (execution_time : Nat) : ExecutionResult :=
  let reason := "执行超时: " ++ toString config.max_execution_time ++ "秒"
  { execution_id := execution_id,
    status := ExecutionStatus.timeout,
    termination_reason := some reason,
    execution_time := execution_time,
    error_message := some reason,
    error_type := some "TimeoutError" }

/-- `AgentExecutor._handle_execution_error` (agent_executor.py lines 514-547):
the result of a run whose escaping exception was caught by `execute`'s
`except Exception` arm. -/
def handle_execution_error (execution_id : String) (error : PyError)
    (execution_time : Nat) : ExecutionResult :=
  let status :=
    match error with
    | PyError.timeoutError _ => ExecutionStatus.timeout
    | _ => ExecutionStatus.failed
  { execution_id := execution_id,
    status := status,
    termination_reason := some (pyErrorStr error),
    execution_time := execution_time,
    error_message := some (pyErrorStr error),
    error_type := some (pyErrorTypeName error) }

/-! ## Observability pipeline (src/services/logging_service.py) -/

/-- A structured log event (logging_service.py `LogEvent`); the timestamp and
the optional correlation fields do not influence the pipeline's control flow
and payloads are modelled as string pairs. -/
structure LogEvent where
  execution_id : String
  event_type : String
  source : String := "unknown"
  payload : List (String × String) := []
deriving Repr, DecidableEq

/-- The observable part of a `LoggingService` instance: each sink is modelled
by the ordered list of events written to it (`LogSink.write` appends and
never raises), and the bounded `Queue` by the list of pending events.
`Queue(maxsize=buffer_size * 2)` is built in `__init__` (line 263). -/
structure LoggingServiceModel where
  sinks : List (List LogEvent)
  enable_async : Bool := true
  buffer_size : Nat := 100
  event_queue : List LogEvent := []
deriving Repr, DecidableEq

/-- The queue bound chosen in `LoggingService.__init__` (line 263). -/
def queueMaxsize (svc : LoggingServiceModel) : Nat := svc.buffer_size * 2

/-- `queue.Queue.full` / the condition under which `put_nowait` raises
`queue.Full`: the maxsize is positive (a maxsize of 0 means unbounded in
Python) and the queue has reached it. -/
def queueFull (svc : LoggingServiceModel) : Bool :=
  queueMaxsize svc != 0 && queueMaxsize svc ≤ svc.event_queue.length

/-- `LoggingService._write_sync` (lines 363-366): write the event to every
configured sink, in order. -/
def write_sync (svc : LoggingServiceModel) (e : LogEvent) : LoggingServiceModel :=
  { svc with sinks := svc.sinks.map (fun written => written ++ [e]) }

/-- `LoggingService.log_event` (lines 314-361): with async enabled the event
is enqueued with `put_nowait`; if that raises (bounded queue full) the bare
`except` falls back to `_write_sync`.  With async disabled the event is
written synchronously. -/
def log_event (svc : LoggingServiceModel) (e : LogEvent) : LoggingServiceModel :=
  if svc.enable_async then
    if queueFull svc then write_sync svc e
    else { svc with event_queue := svc.event_queue ++ [e] }
  else write_sync svc e

/-- The global names bound by the import statements of logging_service.py
(lines 19-30): `import json/traceback/asyncio/logging` bind the module names,
the `from ... import ...` lines bind the imported attributes.  No statement
binds the name `time`. -/
def loggingServiceGlobalNames : List String :=
  ["json", "traceback", "asyncio", "Optional", "Dict", "Any", "List",
   "Callable", "Union", "datetime", "Enum", "dataclass", "field", "asdict",
   "Queue", "Thread", "logging", "BaseModel"]

/-- The attribute names `LoggingService.__init__` assigns on `self`
(lines 258-265).  The `flush_interval` parameter is accepted but never
stored. -/
def loggingServiceInitAttrNames : List String :=
  ["sinks", "enable_async", "buffer_size", "_event_queue", "_worker_thread",
   "_running"]

/-- The first statements of `LoggingService._worker_loop` (lines 279-280):
`batch = []` then `last_flush = time.time()`.  Resolving the global name
`time` fails — the module never imports it — so the background worker thread
raises `NameError` before entering its dispatch loop and dies; nothing placed
on the queue is ever flushed by the dispatcher. -/
def worker_loop_start : Except PyError Unit :=
  if loggingServiceGlobalNames.contains "time" then Except.ok ()
  else Except.error (PyError.nameError "time")

/-! ## Tool execution stage (src/agent/nodes/tool_execution.py) and the
tool registry (src/tools/tool_registry.py) -/

/-- A value stored in the per-call info dict `_extract_tool_calls` builds:
either a string or the (optional) params dict. -/
inductive InfoVal where
  | strV (s : String)
  | paramsV (p : Option (List (String × String)))
deriving Repr, DecidableEq

/-- The info dict for one extracted tool call, keyed by string. -/
abbrev InfoDict := List (String × InfoVal)

def tool_keywords : List String := ["调用", "使用", "执行", "工具"]

/-- `self.tool_name_patterns` (tool_execution.py lines 14-19), each pattern
`pre(\w+)post` represented by its literal prefix and suffix. -/
def tool_name_patterns : List (String × String) :=
  [("调用", "工具"), ("使用", "工具"), ("执行", "工具"), ("调用", "")]

/-- `self.tool_name_mapping` (tool_execution.py lines 21-33), in the source's
insertion order (Python dicts preserve it). -/
def tool_name_mapping : List (String × String) :=
  [("天气", "get_weather"), ("天气查询", "get_weather"), ("查询天气", "get_weather"),
   ("邮件", "send_email"), ("发送邮件", "send_email"), ("邮件发送", "send_email"),
   ("数据库", "query_database"), ("查询数据库", "query_database"),
   ("数据库查询", "query_database"), ("计算", "calculator"), ("计算器", "calculator")]

/-- A character the regex class `\w` matches, for the alphabets this
repository's plan steps use: ASCII alphanumerics, underscore, and CJK unified
ideographs.  The delimiters appearing in plan steps（`，` `：` `=` etc.）are
not word characters. -/
def isWordChar (c : Char) : Bool :=
  c.isAlphanum || c == '_' || (0x4e00 ≤ c.toNat && c.toNat ≤ 0x9fff)

/-- The length of the maximal `\w` run at the head of `cs`. -/
def maxWordRun (cs : List Char) : Nat := (cs.takeWhile isWordChar).length

/-- Greedy backtracking for `(\w+)post` on `rest`: try group lengths from `k`
down to 1 and keep the longest one after which `post` matches, as Python's
backtracking regex engine does. -/
def greedyCapture (post rest : List Char) : Nat → Option (List Char)
  | 0 => none
  | Nat.succ k =>
      if charsHasPrefix post (rest.drop (k + 1)) then some (rest.take (k + 1))
      else greedyCapture post rest k

/-- `re.search` of a pattern `pre(\w+)post` over `cs`, returning the captured
group of the leftmost match: scan positions left to right; at a position where
the literal `pre` matches, capture greedily. -/
def reSearchCapture (pre post : List Char) : List Char → Option (List Char)
  | [] => none
  | c :: cs =>
      (if charsHasPrefix pre (c :: cs) then
        let rest := (c :: cs).drop pre.length
        greedyCapture post rest (maxWordRun rest)
      else none).orElse
        (fun _ => reSearchCapture pre post cs)

/-- Python `str.lower()`. -/
def pyLower (s : String) : String := String.mk (s.data.map Char.toLower)

/-- `ToolExecution._normalize_tool_name` (tool_execution.py lines 104-116):
exact mapping hit, then two-sided containment against the mapping keys, then
space/dash to underscore. -/
def normalize_tool_name (name : String) : String :=
  match tool_name_mapping.lookup name with
  | some v => v
  | none =>
      match tool_name_mapping.findSome?
          (fun kv => if strContains name kv.1 || strContains kv.1 name
                     then some kv.2 else none) with
      | some v => v
      | none =>
          String.mk (name.data.map
            (fun c => if c == ' ' then '_' else if c == '-' then '_' else c))

/-- `ToolExecution._extract_tool_name` (tool_execution.py lines 87-101): try
the regex patterns in order, else scan the Chinese-name mapping for a key
contained in the step. -/
def extract_tool_name (step : String) : Option String :=
  match tool_name_patterns.findSome?
      (fun pat => reSearchCapture pat.1.data pat.2.data step.data) with
  | some grp => some (normalize_tool_name (pyLower (String.mk grp)))
  | none =>
      tool_name_mapping.findSome?
        (fun kv => if strContains step kv.1 then some kv.2 else none)

/-- `ToolExecution._extract_params` (tool_execution.py lines 118-135).  The
body fills a local `params` dict but contains no `return` statement, so the
function returns `None` for every input. -/
def extract_params (_step : String) (_tool_name : String) :
    Option (List (String × String)) := none

/-- The dict literal appended per extracted call (tool_execution.py lines
79-83): keys `"tool_name"`, `"params"` and `"step"`. -/
def mkToolCallInfo (tool_name : String) (params : Option (List (String × String)))
    (step : String) : InfoDict :=
  [("tool_name", InfoVal.strV tool_name),
   ("params", InfoVal.paramsV params),
   ("step", InfoVal.strV step)]

/-- `ToolExecution._extract_tool_calls` (tool_execution.py lines 63-85). -/
def extract_tool_calls (s : State) : List InfoDict :=
  (s.plan.getD []).filterMap (fun step =>
    if tool_keywords.any (fun kw => strContains step kw) then
      match extract_tool_name step with
      | some tool_name =>
          some (mkToolCallInfo tool_name (extract_params step tool_name) step)
      | none => none
    else none)

/-- The registry contents: `ToolRegistry.register` is never invoked anywhere
in the repository (its only occurrence outside its definition is inside a
docstring example), so `ToolRegistry._tools` stays empty. -/
def registered_tools : List (String × String) := []

/-- `ToolRegistry.execute` (tool_registry.py lines 163-225): an unregistered
tool name raises `ValueError` before any validation or execution.  With
`registered_tools = []` every name takes that path; the registered branch
(returning the tool function's result) is vacuous. -/
def tool_registry_execute (name : String) (_s : State)
    (_params : List (String × String)) : Except PyError String :=
  match registered_tools.lookup name with
  | some result => Except.ok result
  | none =>
      Except.error (PyError.valueError ("工具 " ++ name ++ " 未注册。可用工具: []"))

/-- `ToolExecution._execute_tool` (tool_execution.py lines 163-218).  Its
first statements subscript the info dict with `"tool_name"`, `"params"` and
`"step_text"`; `_extract_tool_calls` stores the step under the key `"step"`,
so the `"step_text"` subscript raises `KeyError` for every extracted call,
before the `ToolCall` construction and the fault-capturing `try` block are
reached.  The continuation is modelled anyway: pydantic rejects a `None`
`input_params` at the `ToolCall` construction, and a registry exception is
captured into a failed `ToolCall` record by the `except` arms. -/
def execute_tool (info : InfoDict) (s : State) : Except PyError ToolCall :=
  match info.lookup "tool_name" with
  | none => Except.error (PyError.keyError "tool_name")
  | some (InfoVal.paramsV _) => Except.error (PyError.typeError "tool_name")
  | some (InfoVal.strV tool_name) =>
    match info.lookup "params" with
    | none => Except.error (PyError.keyError "params")
    | some (InfoVal.strV _) => Except.error (PyError.typeError "params")
    | some (InfoVal.paramsV params) =>
      match info.lookup "step_text" with
      | none => Except.error (PyError.keyError "step_text")
      | some _ =>
        match params with
        | none => Except.error (PyError.validationError "ToolCall.input_params")
        | some p =>
          match tool_registry_execute tool_name s p with
          | Except.ok result =>
              Except.ok { name := tool_name, input_params := p,
                          output := some result, success := true, error := none }
          | Except.error e =>
              Except.ok { name := tool_name, input_params := p,
                          output := none, success := false,
                          error := some (pyErrorStr e) }

/-- The `for tool_call_info in tool_calls_to_execute` loop of
`ToolExecution.run` (lines 47-50): execute each call in order; an exception
escaping `_execute_tool` aborts the stage. -/
def execute_all : List InfoDict → State → Except PyError (List ToolCall)
  | [], _ => Except.ok []
  | info :: rest, s =>
      match execute_tool info s with
      | Except.error e => Except.error e
      | Except.ok call =>
          match execute_all rest s with
          | Except.error e => Except.error e
          | Except.ok calls => Except.ok (call :: calls)

/-- `ToolExecution.run` (tool_execution.py lines 35-61), returning the
`tool_calls` value of the partial update it would produce. -/
def tool_execution_run (s : State) : Except PyError (List ToolCall) :=
  if !planTruthy s.plan then Except.ok []
  else
    let infos := extract_tool_calls s
    if infos.isEmpty then Except.ok []
    else
      match execute_all infos s with
      | Except.error e => Except.error e
      | Except.ok executed =>
          let existing := s.tool_calls.map (fun c => c.name)
          let new_calls := executed.filter (fun c => !existing.contains c.name)
          Except.ok (s.tool_calls ++ new_calls)

/-! ## The critic's rejection checks as an ordered rule list

Each check is one rejection rule of the critic, written as
`State → Option String` (`none` = pass, `some reason` = fail with that
reason).  The letters follow the spec: (a) empty draft, (b) failed tool call,
(c) too short, (d) retrieval required but no documents, (e) intent-specific
vocabulary. -/

/-- Check (a): empty/whitespace draft (critic.py line 13). -/
def checkEmptyDraft (s : State) : Option String :=
  if draftMissing s.draft_answer then some "答案为空" else none

/-- Check (b): some recorded tool call failed (critic.py lines 20-29). -/
def checkFailedTools (s : State) : Option String :=
  let failed_tools := s.tool_calls.filter (fun call => !call.success)
  if !failed_tools.isEmpty then
    some ("工具调用失败：" ++ String.intercalate ", " (failed_tools.map (fun c => c.name)))
  else none

/-- Check (c): stripped draft below minimum length (critic.py lines 80-84). -/
def checkTooShort (s : State) : Option String :=
  let draft := pyStrip (s.draft_answer.getD "")
  if pyLen draft < 10 then
    some ("答案过短（" ++ toString (pyLen draft) ++ " 字符）")
  else none

/-- Check (e), analysis half: analysis intent, plan step mentions analysis,
but the draft has no analysis vocabulary (critic.py lines 87-96). -/
def checkAnalysisVocab (s : State) : Option String :=
  let draft := pyStrip (s.draft_answer.getD "")
  if s.intent == some "analysis"
      && !(analysis_keywords.any (fun kw => strContains draft kw))
      && planTruthy s.plan
      && planAny s.plan (fun step => strContains step "分析") then
    some "分析类意图但答案缺少分析性内容"
  else none

/-- Check (e), task half: task intent, plan implies tool use, tool calls were
recorded, but the draft has no execution vocabulary (critic.py lines
97-107). -/
def checkTaskVocab (s : State) : Option String :=
  let draft := pyStrip (s.draft_answer.getD "")
  if s.intent == some "task"
      && !(task_keywords.any (fun kw => strContains draft kw))
      && planTruthy s.plan
      && planAny s.plan (fun step => strContains step "调用" || strContains step "工具")
      && !s.tool_calls.isEmpty then
    some "任务类意图但答案缺少执行状态说明"
  else none

/-- Check (d): the plan declares a retrieval step but no documents were
retrieved (critic.py lines 109-119). -/
def checkRetrievalGap (s : State) : Option String :=
  if planTruthy s.plan
      && planAny s.plan (fun step =>
           strContains step "检索" || strContains step "知识库" || strContains step "RAG")
      && retrievedDocsEmpty s.retrieved_docs then
    some "计划要求检索操作但检索文档为空"
  else none

/-- The first failing check of an ordered rule list, with its reason. -/
def firstFailingReason (checks : List (State → Option String)) (s : State) :
    Option String :=
  checks.findSome? (fun check => check s)

/-- The rejection order the critic's code actually implements:
(a), (b), (c), then the intent-vocabulary checks (e), and the
retrieval-emptiness check (d) last. -/
def criticChecksCodeOrder : List (State → Option String) :=
  [checkEmptyDraft, checkFailedTools, checkTooShort,
   checkAnalysisVocab, checkTaskVocab, checkRetrievalGap]

/-- Modelled from the spec: the rejection order the spec states —
(a) empty draft, (b) failed tool call, (c) too short, (d) retrieval required
but no documents, (e) intent-specific vocabulary — with the first matching
reason surfaced. -/
def criticChecksSpecOrder : List (State → Option String) :=
  [checkEmptyDraft, checkFailedTools, checkTooShort,
   checkRetrievalGap, checkAnalysisVocab, checkTaskVocab]

/-- The reason the critic's code surfaces, viewed through the rule list. -/
def criticReasonCodeOrder (s : State) : Option String :=
  firstFailingReason criticChecksCodeOrder s

/-- Modelled from the spec: the reason the spec's check order would
surface. -/
def criticReasonSpecOrder (s : State) : Option String :=
  firstFailingReason criticChecksSpecOrder s

deriving instance DecidableEq for Except

/-! ## Concrete runs used as evidence -/

/-- A state on its final permitted attempt: no draft was produced and the
retry budget (`max_retries = 2`, the source default) is already used up, so
the critic's next decision is the exhaustion one. -/
def exhaustedCriticState : State :=
  { user_query := "查询北京天气", retries := 2, max_retries := 2 }

/-- The state the critic's exhaustion branch documents itself as producing:
`critic_decision = "fail"` with the `超出最大重试次数：...` reason (critic.py
lines 63-67), as seen by the router. -/
def failDecisionState : State :=
  { user_query := "查询北京天气",
    critic_decision := some "fail",
    critic_reason := some "超出最大重试次数：答案为空" }

/-- A state whose draft passes every critic check. -/
def acceptableDraftState : State :=
  { user_query := "介绍一下系统", draft_answer := some "这是一个足够详细的回答内容哦" }

/-- An analysis-intent state whose plan requires both analysis and retrieval,
whose draft is long enough but has neither analysis vocabulary nor retrieved
documents: rejection checks (d) and (e) both fail on it. -/
def vocabGapState : State :=
  { user_query := "分析销售数据",
    intent := some "analysis",
    plan := some ["分析数据", "检索知识库"],
    retrieved_docs := none,
    draft_answer := some "这是一个足够长的回答内容啊" }

/-- The update the critic actually produces on `vocabGapState`: the
vocabulary check's reason, not the retrieval check's. -/
def vocabGapUpdate : CriticUpdate :=
  { critic_decision := "retry",
    critic_reason := "分析类意图但答案缺少分析性内容",
    final_answer := none }

/-- A state whose plan contains a tool-invocation step (`工具` keyword, the
`天气` mapping resolves to `get_weather`), so `_extract_tool_calls` yields a
call to execute. -/
def toolStepState : State :=
  { user_query := "帮我查询北京天气", plan := some ["用天气工具查询，城市=北京"] }

def floodEventA : LogEvent :=
  { execution_id := "exec-1", event_type := "execution.started", source := "executor" }

def floodEventB : LogEvent :=
  { execution_id := "exec-1", event_type := "node.execution_completed", source := "graph" }

def floodEventC : LogEvent :=
  { execution_id := "exec-1", event_type := "execution.completed", source := "executor" }

/-- A two-sink pipeline whose bounded queue (maxsize `buffer_size * 2 = 2`)
is full. -/
def fullQueueService : LoggingServiceModel :=
  { sinks := [[], []],
    enable_async := true,
    buffer_size := 1,
    event_queue := [floodEventA, floodEventB] }

/-! ## Helper lemmas -/

lemma charsHasPrefix_append (p b : List Char) : charsHasPrefix p (p ++ b) = true := by
  induction p with
  | nil => rfl
  | cons c cs ih => simp [charsHasPrefix, ih]

lemma charsContains_self_append (p b : List Char) : charsContains p (p ++ b) = true := by
  cases p with
  | nil =>
      cases b with
      | nil => rfl
      | cons c cs => simp [charsContains, charsHasPrefix]
  | cons c cs =>
      simp only [charsContains, Bool.or_eq_true]
      exact Or.inl (charsHasPrefix_append (c :: cs) b)

lemma charsContains_append_left (p x tail : List Char)
    (h : charsContains p tail = true) : charsContains p (x ++ tail) = true := by
  induction x with
  | nil => simpa using h
  | cons c cs ih => simp [charsContains, ih]

lemma stringData_append (a b : String) : (a ++ b).data = a.data ++ b.data := rfl

/-- A string embedded between two others is contained in the result. -/
lemma strContains_embed (a s b : String) : strContains (a ++ s ++ b) s = true := by
  unfold strContains
  rw [stringData_append, stringData_append, List.append_assoc]
  exact charsContains_append_left _ _ _ (charsContains_self_append _ _)

/-- An `Except.ok` result of `_handle_retry` is always the retry update: the
exhaustion branch cannot return (it raises `AttributeError`). -/
lemma handle_retry_ok (s : State) (r : String) (u : CriticUpdate)
    (h : handle_retry s r = Except.ok u) :
    u = { critic_decision := "retry", critic_reason := r, final_answer := none } := by
  unfold handle_retry at h
  simp only [State.getTraceId] at h
  split at h
  · cases h
  · exact (Except.ok.inj h).symm

/-- A falsy plan yields no extracted tool calls. -/
lemma extract_tool_calls_of_plan_falsy (s : State)
    (h : planTruthy s.plan = false) : extract_tool_calls s = [] := by
  unfold extract_tool_calls
  cases hp : s.plan with
  | none => rfl
  | some l =>
      cases l with
      | nil => rfl
      | cons x xs => rw [hp] at h; simp [planTruthy] at h

/-- Every info dict `_extract_tool_calls` produces has the literal key set
`tool_name`/`params`/`step`. -/
lemma extract_tool_calls_mem (s : State) (i : InfoDict)
    (h : i ∈ extract_tool_calls s) :
    ∃ tn p st, i = mkToolCallInfo tn p st := by
  unfold extract_tool_calls at h
  rw [List.mem_filterMap] at h
  obtain ⟨step, _, hstep⟩ := h
  split at hstep
  · split at hstep
    · exact ⟨_, _, _, (Option.some.inj hstep).symm⟩
    · simp at hstep
  · simp at hstep

/-- `_execute_tool` on any dict of the shape `_extract_tool_calls` builds
raises `KeyError: step_text`. -/
lemma execute_tool_mkInfo (tn : String) (p : Option (List (String × String)))
    (st : String) (s : State) :
    execute_tool (mkToolCallInfo tn p st) s = Except.error (PyError.keyError "step_text") := rfl

/-- `_check_quality` is exactly the ordered rule list
too-short → analysis-vocabulary → task-vocabulary → retrieval-gap, first
match wins. -/
lemma check_quality_as_rule_list (s : State) :
    check_quality s =
      firstFailingReason
        [checkTooShort, checkAnalysisVocab, checkTaskVocab, checkRetrievalGap] s := by
  unfold check_quality checkTooShort checkAnalysisVocab checkTaskVocab checkRetrievalGap
    firstFailingReason
  simp only [List.findSome?]
  split_ifs <;> rfl

/-- When checks (a) and (b) pass, the code-order rule list reduces to the
quality-check tail. -/
lemma criticReasonCodeOrder_eq_tail (s : State)
    (h1 : checkEmptyDraft s = none) (h2 : checkFailedTools s = none) :
    criticReasonCodeOrder s =
      firstFailingReason
        [checkTooShort, checkAnalysisVocab, checkTaskVocab, checkRetrievalGap] s := by
  simp [criticReasonCodeOrder, criticChecksCodeOrder, firstFailingReason,
    List.findSome?, h1, h2]

/-! ## Claim theorems -/

/-- C1: the claim says `CRITIC → DONE/FAILED (END)` whenever the critic's
decision is made with `retries > maxRetries`.  On exhaustion the critic emits
`critic_decision = "fail"` (critic.py line 64), but `route_after_critic`
recognizes only `"accept"` and a never-produced `"reject"`; `"fail"` takes
the default arm, so the graph routes the exhausted run back to the planner
instead of terminating at `END`. -/
theorem critic_fail_decision_routes_to_planner_not_end :
    route_after_critic failDecisionState ≠ Except.ok RouteTarget.toEnd ∧
    route_after_critic failDecisionState = Except.ok RouteTarget.toPlanner :=
  ⟨by decide, rfl⟩

/-- C2: the claim says callers of `execute`/`execute_async` always receive a
well-formed `Result` and never a raised exception.  `AgentExecutor.__init__`
reads `self.config.enable_logging`, a field `ExecutionConfig` does not
declare, so constructing the executor raises `AttributeError` for every
configuration and no caller can ever reach a `Result`.  (The error handler
itself would populate `error_message`/`error_type`, as the claim's second
half describes.) -/
theorem executor_init_always_raises_attribute_error :
    (∀ config : ExecutionConfig,
      agentExecutorInit config = Except.error (PyError.attributeError "enable_logging")) ∧
    ∀ (eid : String) (err : PyError) (t : Nat),
      (handle_execution_error eid err t).error_message ≠ none ∧
      (handle_execution_error eid err t).error_type ≠ none :=
  ⟨fun _ => rfl,
   fun _ _ _ => ⟨by simp [handle_execution_error], by simp [handle_execution_error]⟩⟩

/-- C3 counterexample: the claim says a stage, once started, is never
interrupted mid-execution by the time budget.  The blocking path arms
`signal.alarm` with the budget; with a budget of 1 second and a single stage
taking 3 seconds, the alarm fires strictly inside the stage. -/
theorem sigalrm_interrupts_a_running_stage : alarmFiresMidStage 1 [3] = true := rfl

/-- C3 (amended): timeout enforcement in the blocking path is preemptive — an
OS alarm armed with the configured budget can fire mid-stage — and when the
resulting `TimeoutError` is caught the run terminates with status `TIMEOUT`,
a termination reason embedding the configured budget, and error type
`TimeoutError`. -/
theorem preemptive_timeout_yields_timeout_result :
    alarmFiresMidStage 1 [3] = true ∧
    ∀ (config : ExecutionConfig) (eid : String) (t : Nat),
      (handle_timeout config eid t).status = ExecutionStatus.timeout ∧
      strContains ((handle_timeout config eid t).termination_reason.getD "")
        (toString config.max_execution_time) = true ∧
      (handle_timeout config eid t).error_type = some "TimeoutError" := by
  refine ⟨rfl, fun config eid t => ⟨rfl, ?_, rfl⟩⟩
  show strContains ("执行超时: " ++ toString config.max_execution_time ++ "秒")
      (toString config.max_execution_time) = true
  exact strContains_embed _ _ _

/-- C4: the claim says `maxSteps` is a budget distinct from `maxRetries` and
configuring it does not alter the run's `maxRetries`.
`AgentExecutor._initialize_state` builds the initial state with
`max_retries=self.config.max_steps`, so the retry budget always equals the
configured step budget (5 and 7 below), not the declared default of 2. -/
theorem initialize_state_overwrites_max_retries_with_max_steps :
    (∀ (config : ExecutionConfig) (q : String),
      (initialize_state config q none).max_retries = config.max_steps) ∧
    (initialize_state { max_steps := 5 } "查询天气" none).max_retries = 5 ∧
    (initialize_state { max_steps := 7 } "查询天气" none).max_retries = 7 ∧
    ({ user_query := "查询天气" } : State).max_retries = 2 :=
  ⟨fun _ _ => rfl, rfl, rfl, rfl⟩

/-- C5: when the bounded queue is full and async mode is on, `log_event`
falls back to a direct synchronous write: the queue is untouched and the
event is appended to every configured sink, so the submission is not
dropped. -/
theorem log_event_queue_full_writes_sync_to_all_sinks
    (svc : LoggingServiceModel) (e : LogEvent)
    (h1 : svc.enable_async = true) (h2 : queueFull svc = true) :
    (log_event svc e).event_queue = svc.event_queue ∧
    (log_event svc e).sinks = svc.sinks.map (fun written => written ++ [e]) := by
  simp [log_event, h1, h2, write_sync]

/-- C5 witness: a two-sink service whose queue (capacity 2) holds two events
is full, and submitting a third event leaves the queue unchanged while every
sink receives the event. -/
theorem log_event_queue_full_witness :
    queueFull fullQueueService = true ∧
    (log_event fullQueueService floodEventC).event_queue = fullQueueService.event_queue ∧
    (log_event fullQueueService floodEventC).sinks =
      fullQueueService.sinks.map (fun written => written ++ [floodEventC]) :=
  ⟨rfl, (log_event_queue_full_writes_sync_to_all_sinks fullQueueService floodEventC rfl rfl).1,
        (log_event_queue_full_writes_sync_to_all_sinks fullQueueService floodEventC rfl rfl).2⟩

/-- C6: the claim says the background dispatcher batches and flushes every
enqueued event.  logging_service.py never imports `time`, so the worker
loop's first statement `last_flush = time.time()` raises `NameError` and the
dispatcher thread dies before its loop starts; moreover `__init__` never
stores the `flush_interval` the loop would read.  No enqueued event is ever
flushed by the dispatcher. -/
theorem worker_loop_dies_of_name_error :
    worker_loop_start = Except.error (PyError.nameError "time") ∧
    loggingServiceInitAttrNames.contains "flush_interval" = false :=
  ⟨rfl, rfl⟩

/-- C7: the claim says the exhaustion failure message embeds `maxRetries`,
the last rejection reason and the run's `executionId`, and becomes
`finalAnswer`.  The message f-string reads `state.trace_id`, a field `State`
does not declare, so on its final permitted attempt the critic raises
`AttributeError: trace_id` and produces no message at all. -/
theorem critic_exhaustion_raises_trace_id_attribute_error :
    criticRun exhaustedCriticState = Except.error (PyError.attributeError "trace_id") := rfl

/-- C8: the claim says the tool-execution stage returns a partial update for
every state whose plan contains tool-invocation steps, never raising for
business-level failures.  `_extract_tool_calls` stores each call under the
key `"step"` while `_execute_tool` subscripts `"step_text"`, so whenever at
least one call is extracted the stage raises `KeyError: step_text` before
its fault-capturing `try` block is reached. -/
theorem tool_execution_run_raises_key_error
    (s : State) (h : extract_tool_calls s ≠ []) :
    tool_execution_run s = Except.error (PyError.keyError "step_text") := by
  have hpt : planTruthy s.plan = true := by
    by_contra hc
    rw [Bool.not_eq_true] at hc
    exact h (extract_tool_calls_of_plan_falsy s hc)
  unfold tool_execution_run
  rw [hpt]
  cases hI : extract_tool_calls s with
  | nil => exact absurd hI h
  | cons i rest =>
      obtain ⟨tn, p, st, hi⟩ :=
        extract_tool_calls_mem s i (by rw [hI]; exact List.mem_cons_self i rest)
      subst hi
      simp [hI, execute_all, execute_tool_mkInfo]

/-- C8 witness: a plan with the single step `用天气工具查询，城市=北京` yields an
extracted `get_weather` call, and the stage raises `KeyError: step_text` on
it. -/
theorem tool_execution_run_key_error_witness :
    extract_tool_calls toolStepState ≠ [] ∧
    tool_execution_run toolStepState = Except.error (PyError.keyError "step_text") :=
  ⟨by decide, tool_execution_run_raises_key_error toolStepState (by decide)⟩

/-- C9: in every update the critic actually returns, `final_answer` is
non-null iff the decision is `accept` or `fail`, and a `retry` decision
carries a null `final_answer`.  (The `fail` arm of `_handle_retry` never
returns — it raises on `trace_id` — so returned updates are `accept` or
`retry`.) -/
theorem critic_final_answer_iff_accept_or_fail
    (s : State) (u : CriticUpdate) (h : criticRun s = Except.ok u) :
    ((u.final_answer ≠ none) ↔ (u.critic_decision = "accept" ∨ u.critic_decision = "fail")) ∧
    (u.critic_decision = "retry" → u.final_answer = none) := by
  unfold criticRun at h
  split at h
  · have hu := handle_retry_ok _ _ _ h
    subst hu
    exact ⟨by decide, fun _ => rfl⟩
  · next hd =>
    dsimp only at h
    split at h
    · have hu := handle_retry_ok _ _ _ h
      subst hu
      exact ⟨by simp, fun _ => rfl⟩
    · split at h
      · have hu := handle_retry_ok _ _ _ h
        subst hu
        exact ⟨by simp, fun _ => rfl⟩
      · have hu := (Except.ok.inj h).symm
        subst hu
        cases hda : s.draft_answer with
        | none => exact absurd (by rw [hda]; rfl) hd
        | some d => exact ⟨by simp [hda], fun hcon => by simp at hcon⟩

/-- C9 witness: a ten-plus-character draft with no failed tools is accepted,
and the accepted update satisfies the invariant. -/
theorem critic_final_answer_iff_witness :
    ((({ critic_decision := "accept", critic_reason := "全部检查通过",
         final_answer := some "这是一个足够详细的回答内容哦" } : CriticUpdate).final_answer ≠ none) ↔
      (({ critic_decision := "accept", critic_reason := "全部检查通过",
          final_answer := some "这是一个足够详细的回答内容哦" } : CriticUpdate).critic_decision = "accept" ∨
       ({ critic_decision := "accept", critic_reason := "全部检查通过",
          final_answer := some "这是一个足够详细的回答内容哦" } : CriticUpdate).critic_decision = "fail")) ∧
    (({ critic_decision := "accept", critic_reason := "全部检查通过",
        final_answer := some "这是一个足够详细的回答内容哦" } : CriticUpdate).critic_decision = "retry" →
     ({ critic_decision := "accept", critic_reason := "全部检查通过",
        final_answer := some "这是一个足够详细的回答内容哦" } : CriticUpdate).final_answer = none) :=
  critic_final_answer_iff_accept_or_fail acceptableDraftState _ rfl

/-- C10 counterexample: the claim orders the checks (a)(b)(c)(d)(e) with the
first failing check's reason surfaced.  On `vocabGapState` both the
retrieval-gap check (d) and the analysis-vocabulary check (e) fail; the
spec's order would surface (d)'s reason, but the critic surfaces (e)'s. -/
theorem critic_surfaces_vocab_reason_before_retrieval_reason :
    criticRun vocabGapState = Except.ok vocabGapUpdate ∧
    criticReasonSpecOrder vocabGapState = some "计划要求检索操作但检索文档为空" ∧
    criticReasonSpecOrder vocabGapState ≠ criticReasonCodeOrder vocabGapState :=
  ⟨rfl, rfl, by decide⟩

/-- C10 (amended): the rejection checks are applied in the order (a)
empty/whitespace draft, (b) failed tool call, (c) below minimum length,
(e) intent-specific vocabulary checks, (d) retrieval required but no
documents; the first failing check short-circuits the rest and its reason is
the surfaced `critic_reason` (an accepted draft fails no check). -/
theorem critic_check_order_matches_code_order
    (s : State) (u : CriticUpdate) (h : criticRun s = Except.ok u) :
    (u.critic_decision = "accept" ∧ criticReasonCodeOrder s = none) ∨
    (u.critic_decision = "retry" ∧ criticReasonCodeOrder s = some u.critic_reason) := by
  unfold criticRun at h
  split at h
  · next hd =>
    have hu := handle_retry_ok _ _ _ h
    subst hu
    right
    refine ⟨rfl, ?_⟩
    simp [criticReasonCodeOrder, criticChecksCodeOrder, firstFailingReason,
      List.findSome?, checkEmptyDraft, hd]
  · next hd =>
    dsimp only at h
    split at h
    · next hb =>
      have hu := handle_retry_ok _ _ _ h
      subst hu
      right
      refine ⟨rfl, ?_⟩
      simp [criticReasonCodeOrder, criticChecksCodeOrder, firstFailingReason,
        List.findSome?, checkEmptyDraft, checkFailedTools, hd, hb]
    · next hb =>
      have h1 : checkEmptyDraft s = none := by simp [checkEmptyDraft, hd]
      have h2 : checkFailedTools s = none := by
        simp only [checkFailedTools]
        simp only [Bool.not_eq_true] at hb
        simp [hb]
      split at h
      · next reason hq =>
        have hu := handle_retry_ok _ _ _ h
        subst hu
        right
        refine ⟨rfl, ?_⟩
        rw [criticReasonCodeOrder_eq_tail s h1 h2, ← check_quality_as_rule_list]
        exact hq
      · next hq =>
        have hu := (Except.ok.inj h).symm
        subst hu
        left
        refine ⟨rfl, ?_⟩
        rw [criticReasonCodeOrder_eq_tail s h1 h2, ← check_quality_as_rule_list]
        exact hq

/-- C10 witness: on `vocabGapState` the critic retries and the surfaced
reason is the first failing check in code order — the analysis-vocabulary
check. -/
theorem critic_check_order_witness :
    (vocabGapUpdate.critic_decision = "accept" ∧
      criticReasonCodeOrder vocabGapState = none) ∨
    (vocabGapUpdate.critic_decision = "retry" ∧
      criticReasonCodeOrder vocabGapState = some vocabGapUpdate.critic_reason) :=
  critic_check_order_matches_code_order vocabGapState vocabGapUpdate rfl

end AgentOps
